import Mathlib

/-!
Verification of the CamemBERT CEFR-classification notebook
(`src/code/part_2.ipynb` of ajmim/Data-Mining-Machine-Learning).

The notebook is a linear script: it tokenizes and batches a HuggingFace
dataset with train/validation/test splits, fine-tunes a pretrained
CamemBERT model through a pytorch-lightning trainer, reloads the best
checkpoint, and exports test-set predictions to `preds.csv`.

This file shallowly embeds the notebook's authored logic:
* `tokenize_batch`, the collate function (cell defining it, with the
  HuggingFace tokenizer call abstracted as a per-sentence encoding
  function and its documented longest-padding behaviour);
* the dataloader configurations and the chunked, unshuffled iteration
  order of the validation/test dataloaders;
* the checkpoint selection (`ModelCheckpoint(monitor="valid/acc",
  mode="max")` followed by `load_from_checkpoint(best_model_path)`);
* the submission-building cell (pandas column assignment, the
  `label_names[x]` lookup, the drop of `sentence`/`label`, the csv index);
* the notebook's cell-by-cell name binding, to check the top-to-bottom
  execution claim.
-/

namespace Camembert

/-- String constants used by the notebook. -/
def sentenceCol : String := "sentence"

def labelCol : String := "label"

def difficultyCol : String := "difficulty"

def idIndexName : String := "id"

def validAccMonitor : String := "valid/acc"

def maxMode : String := "max"

def camembertBase : String := "camembert-base"

/-- A row of one of the dataset splits, with the three fields the
notebook reads: `sentence`, `label` and `difficulty`. -/
structure Sample where
  sentence : String
  label : Nat
  difficulty : String
deriving DecidableEq, Repr

/-! ## The collate function `tokenize_batch`

The HuggingFace tokenizer call
`tokenizer(text, padding="longest", return_tensors="pt")` is embedded
with the per-sentence encoding abstracted as `encode : String → List Nat`
(token ids including special tokens); its documented `padding="longest"`
behaviour pads every row with the pad token id to the longest row of the
batch and sets the attention mask to 1 on real tokens and 0 on padding. -/

/-- Length of the longest token sequence in a batch. -/
def maxLen (xss : List (List Nat)) : Nat :=
  xss.foldr (fun xs m => max xs.length m) 0

/-- Pad a token sequence on the right with `padId` up to length `n`. -/
def padTo (padId : Nat) (n : Nat) (xs : List Nat) : List Nat :=
  xs ++ List.replicate (n - xs.length) padId

/-- Attention mask of a row padded to length `n`: ones over the real
tokens, zeros over the padding. -/
def maskTo (n : Nat) (xs : List Nat) : List Nat :=
  List.replicate xs.length 1 ++ List.replicate (n - xs.length) 0

/-- Result of `tokenize_batch`: the dict
`{"input_ids": ..., "attention_mask": ..., "labels": ..., "str_labels": ..., "sentences": ...}`. -/
structure TokenizedBatch where
  input_ids : List (List Nat)
  attention_mask : List (List Nat)
  labels : List Nat
  str_labels : List String
  sentences : List String
deriving Repr

/-- Embedding of `tokenize_batch(samples, tokenizer)` from the notebook:
collects the `sentence`, `label` and `difficulty` fields of the samples
in order, then tokenizes the sentences with longest-padding. -/
def tokenize_batch (encode : String → List Nat) (padId : Nat)
    (samples : List Sample) : TokenizedBatch :=
  let text := samples.map (·.sentence)
  let toks := text.map encode
  let n := maxLen toks
  { input_ids := toks.map (padTo padId n)
    attention_mask := toks.map (maskTo n)
    labels := samples.map (·.label)
    str_labels := samples.map (·.difficulty)
    sentences := text }

/-! ## Dataloader configuration and chunked iteration -/

/-- The parameters of a `torch.utils.data.DataLoader` call that the
notebook sets explicitly. -/
structure DataLoaderConfig where
  batch_size : Nat
  shuffle : Bool
deriving DecidableEq, Repr

/-- `train_dataloader = DataLoader(dataset["train"], batch_size=16, shuffle=True, ...)`. -/
def train_dataloader_config : DataLoaderConfig := { batch_size := 16, shuffle := true }

/-- `val_dataloader = DataLoader(dataset["validation"], batch_size=16, shuffle=False, ...)`. -/
def val_dataloader_config : DataLoaderConfig := { batch_size := 16, shuffle := false }

/-- `test_dataloader = DataLoader(dataset["test"], batch_size=16, shuffle=False, ...)`. -/
def test_dataloader_config : DataLoaderConfig := { batch_size := 16, shuffle := false }

/-- An unshuffled `DataLoader` yields the split in consecutive batches of
at most `k` rows, in the original order. -/
def chunks (k : Nat) : List α → List (List α)
  | [] => []
  | x :: xs => (x :: xs.take (k - 1)) :: chunks k (xs.drop (k - 1))
termination_by xs => xs.length
decreasing_by simp [List.length_drop]; omega

/-- `trainer.predict(model, dataloaders=dl)` followed by
`torch.cat(preds, -1)`: the model maps each row of each batch to a
predicted label id, the per-batch prediction vectors are concatenated. -/
def predictSplit (model : Sample → Nat) (rows : List Sample) : List Nat :=
  ((chunks 16 rows).map (fun b => b.map model)).flatten

/-! ## Model and trainer configuration -/

/-- The constructor arguments of
`LightningModel("camembert-base", num_labels, lr=3e-5, weight_decay=2)`
other than the dataset-dependent `num_labels`. -/
structure ModelInit where
  model_name : String
  lr : ℚ
  weight_decay : ℚ
deriving DecidableEq, Repr

def lightning_model_init : ModelInit :=
  { model_name := camembertBase, lr := 3 / 100000, weight_decay := 2 }

/-- The arguments of `pl.callbacks.EarlyStopping(monitor="valid/acc", patience=4, mode="max")`. -/
structure EarlyStoppingConfig where
  monitor : String
  patience : Nat
  mode : String
deriving DecidableEq, Repr

def early_stopping_config : EarlyStoppingConfig :=
  { monitor := validAccMonitor, patience := 4, mode := maxMode }

/-- The arguments of `pl.callbacks.ModelCheckpoint(monitor="valid/acc", mode="max")`. -/
structure CheckpointConfig where
  monitor : String
  mode : String
deriving DecidableEq, Repr

def model_checkpoint_config : CheckpointConfig :=
  { monitor := validAccMonitor, mode := maxMode }

/-! ## Label-name mapping

`ID_TO_LABEL = dict(zip(range(6), ("A1", "A2", "B1", "B2", "C1", "C2")))` (the notebook spells the tuple with single quotes)
and `label_names = list(ID_TO_LABEL.values())`. -/

/-- The tuple of CEFR level names, `("A1", "A2", "B1", "B2", "C1", "C2")`. -/
def levelTuple : List String := ["A1", "A2", "B1", "B2", "C1", "C2"]

/-- `ID_TO_LABEL`: the insertion-ordered dict built by zipping `range(6)`
with the level names. -/
def ID_TO_LABEL : List (Nat × String) := (List.range 6).zip levelTuple

/-- Dict lookup `ID_TO_LABEL[x]`, `none` when the key is absent (a Python
`KeyError`). -/
def idToLabelGet (x : Nat) : Option String :=
  (ID_TO_LABEL.find? (fun c => c.1 == x)).map (·.2)

/-- `label_names = list(ID_TO_LABEL.values())`. -/
def label_names : List String := ID_TO_LABEL.map (·.2)

/-- List indexing `label_names[x]`, `none` when the index is out of range
(a Python `IndexError`). -/
def labelNameAt (x : Nat) : Option String := label_names[x]?

/-! ## The pandas dataframe model

A dataframe is its ordered list of named columns plus the name of its
index; a cell value is either a string or an integer. -/

inductive Value where
  | str : String → Value
  | int : Nat → Value
deriving DecidableEq, Repr

/-- Named columns in order, as produced by `Dataset.to_pandas()`. -/
structure DataFrame where
  indexName : String
  cols : List (String × List Value)
deriving DecidableEq, Repr

/-- Column read `df[name]` / `df.name`: the first column with the given
name, `none` when there is no such column. -/
def findColList : List (String × List Value) → String → Option (List Value)
  | [], _ => none
  | c :: cs, name => if c.1 = name then some c.2 else findColList cs name

def getCol (df : DataFrame) (name : String) : Option (List Value) :=
  findColList df.cols name

/-- Attribute assignment `df.name = vals` on an existing column: pandas
overwrites the column; when no column has that name it only sets an
instance attribute, leaving the columns unchanged. -/
def setColList : List (String × List Value) → String → List Value →
    List (String × List Value)
  | [], _, _ => []
  | c :: cs, name, vals =>
      (if c.1 = name then (c.1, vals) else c) :: setColList cs name vals

/-- `df.drop(columns=names)`: remove every column whose name is listed. -/
def dropColsList : List (String × List Value) → List String →
    List (String × List Value)
  | [], _ => []
  | c :: cs, names =>
      if c.1 ∈ names then dropColsList cs names
      else c :: dropColsList cs names

/-- `Dataset.to_pandas()` on a split: columns `sentence`, `label`,
`difficulty` holding the rows' fields in order. -/
def splitToFrame (rows : List Sample) : DataFrame :=
  { indexName := ""
    cols := [(sentenceCol, rows.map (fun r => Value.str r.sentence)),
             (labelCol, rows.map (fun r => Value.int r.label)),
             (difficultyCol, rows.map (fun r => Value.str r.difficulty))] }

/-- The body of `lambda x: label_names[x]` applied to one cell of the
`label` column: indexing with a non-integer, or past the end of
`label_names`, raises. -/
def valueToLabelName : Value → Option Value
  | Value.int x => (labelNameAt x).map Value.str
  | Value.str _ => none

/-- `Series.apply` of `lambda x: label_names[x]`: `none` as soon as one
cell raises. -/
def mapLabelNames : List Value → Option (List Value)
  | [] => some []
  | v :: vs =>
    match valueToLabelName v, mapLabelNames vs with
    | some w, some ws => some (w :: ws)
    | _, _ => none

/-- The submission-building cell, after `preds` has been computed:
`test_df.label = preds.numpy()`, then
`test_df.difficulty = test_df.label.apply(lambda x: label_names[x])`,
then the index renaming `test_df.index.name` to `id`, then
`test_df.drop(columns=["sentence", "label"], inplace=True)`.
Returns `none` when the `label` column is missing or the lookup raises. -/
def submissionPipeline (df : DataFrame) (preds : List Nat) : Option DataFrame :=
  let cols1 := setColList df.cols labelCol (preds.map Value.int)
  match findColList cols1 labelCol with
  | none => none
  | some labVals =>
    match mapLabelNames labVals with
    | none => none
    | some diffVals =>
      some { indexName := idIndexName
             cols := dropColsList (setColList cols1 difficultyCol diffVals)
                       [sentenceCol, labelCol] }

/-- The whole test-prediction flow of the final cell: chunked unshuffled
iteration over the test split, per-row prediction, concatenation, then
the submission-building steps, starting from `dataset["test"].to_pandas()`. -/
def exportedSubmission (model : Sample → Nat) (rows : List Sample) :
    Option DataFrame :=
  submissionPipeline (splitToFrame rows) (predictSplit model rows)

/-- The name `label_names[p]` resolves to when `p` is in range (used to
state what the pipeline writes). -/
def levelName (p : Nat) : String := label_names.getD p ""

/-! ## `num_labels`

`num_labels = len(pd_dataset["train"]["label"].unique())`: the number of
distinct values of the train split's `label` column, in which
`Series.unique` keeps one representative per distinct value. -/

def num_labels_of (trainLabels : List Nat) : Nat := trainLabels.dedup.length

/-! ## Checkpoint selection

`pl.callbacks.ModelCheckpoint(monitor="valid/acc", mode="max")` tracks,
over the epochs of `trainer.fit`, the checkpoint whose monitored value is
largest (in `max` mode a checkpoint replaces the incumbent only on strict
improvement), and
`LightningModel.load_from_checkpoint(checkpoint_path=model_checkpoint.best_model_path)`
reloads that checkpoint. An epoch's checkpoint is modelled as its
monitored `valid/acc` value paired with the saved model state. -/

def checkpointStep (best : Option (Nat × α)) (c : Nat × α) : Option (Nat × α) :=
  match best with
  | none => some c
  | some b => if b.1 < c.1 then some c else some b

/-- The checkpoint at `best_model_path` after a fit that produced the
given per-epoch checkpoints in order. -/
def bestCheckpoint (ckpts : List (Nat × α)) : Option (Nat × α) :=
  ckpts.foldl checkpointStep none

/-- The model bound to `lightning_model` after the training cell: the
state reloaded from `best_model_path`. -/
def reloadedModel (ckpts : List (Nat × α)) : Option α :=
  (bestCheckpoint ckpts).map (·.2)

/-- The model passed to `camembert_trainer.predict` for the validation
analysis: the notebook passes `lightning_model` as reloaded. -/
def predictionModelForVal (ckpts : List (Nat × α)) : Option α := reloadedModel ckpts

/-- The model passed to `camembert_trainer.predict` for the test
submission: again `lightning_model` as reloaded. -/
def predictionModelForTest (ckpts : List (Nat × α)) : Option α := reloadedModel ckpts

/-! ## Dataset loading and positional unpacking -/

/-- Modelled from the spec: the HuggingFace dataset `Makxxx/french_CEFR`
loaded by `load_dataset` is external data, not under `src/`; per the
spec it is "a dataset loader producing train/validation/test splits",
modelled as the insertion-ordered dict
`{"train": ..., "validation": ..., "test": ...}` in that order. -/
def loadedDataset (train val test : List Sample) : List (String × List Sample) :=
  [("train", train), ("validation", val), ("test", test)]

/-- `dataset.values()`: the dict's values in insertion order. -/
def datasetValues (d : List (String × List Sample)) : List (List Sample) :=
  d.map (·.2)

/-- The positional unpacking
`train_dataset, test_dataset, val_dataset = dataset.values()`
in the loading cell. -/
def unpackedSplits (train val test : List Sample) :
    List Sample × List Sample × List Sample :=
  match datasetValues (loadedDataset train val test) with
  | [a, b, c] => (a, b, c)
  | _ => ([], [], [])

def train_dataset_var (train val test : List Sample) : List Sample :=
  (unpackedSplits train val test).1

def test_dataset_var (train val test : List Sample) : List Sample :=
  (unpackedSplits train val test).2.1

def val_dataset_var (train val test : List Sample) : List Sample :=
  (unpackedSplits train val test).2.2

/-! ## Cell-by-cell name binding

Each code cell of the notebook is recorded with the global names its
execution reads before they could be (re)bound inside the cell, and the
global names it binds. Names referenced inside a function body count at
the cell that calls the function (Python resolves globals at call time);
builtins are omitted. -/

inductive PyName where
  | pd | autoTok | loadDatasetFn | sns | torch | dataLoaderCls | functools
  | lightningModelCls | pl | confusionMatrixFn | plt | classificationReportFn
  | tokenizeBatchFn | plotConfusionMatrixFn
  | tokenizer | dataset | pdDataset | trainDatasetVar | testDatasetVar
  | valDatasetVar | numLabels
  | nbLabels | ax
  | trainDataloader | valDataloader
  | lightningModel | modelCheckpoint | camembertTrainer
  | idToLabel | labelNames | camembertPreds
  | wrongPreds | wrong | preds
  | testDataloader | testDf
  | np
deriving DecidableEq, Repr

structure NotebookCell where
  uses : List PyName
  defines : List PyName
deriving DecidableEq, Repr

/-- The imports-and-functions cell: only imports and two `def`s run. -/
def importsCell : NotebookCell :=
  { uses := []
    defines := [.pd, .autoTok, .loadDatasetFn, .sns, .torch, .dataLoaderCls,
                .functools, .lightningModelCls, .pl, .confusionMatrixFn, .plt,
                .classificationReportFn, .tokenizeBatchFn, .plotConfusionMatrixFn] }

/-- The tokenizer/dataset loading cell. -/
def loadDataCell : NotebookCell :=
  { uses := [.autoTok, .loadDatasetFn]
    defines := [.tokenizer, .dataset, .pdDataset, .trainDatasetVar,
                .testDatasetVar, .valDatasetVar, .numLabels] }

/-- The label-frequency plot cell. -/
def labelHistCell : NotebookCell :=
  { uses := [.sns, .pdDataset], defines := [.nbLabels, .ax] }

/-- The sentence-length plot cell. -/
def lengthHistCell : NotebookCell :=
  { uses := [.pdDataset], defines := [.ax] }

/-- The additional-information print cell. -/
def infoCell : NotebookCell :=
  { uses := [.pdDataset, .trainDatasetVar, .testDatasetVar, .valDatasetVar]
    defines := [] }

/-- The train/validation dataloader cell. -/
def dataloadersCell : NotebookCell :=
  { uses := [.dataLoaderCls, .dataset, .functools, .tokenizeBatchFn, .tokenizer]
    defines := [.trainDataloader, .valDataloader] }

/-- The training cell (`fit` iterates the dataloaders, whose collate
function reads the global `torch`). -/
def trainingCell : NotebookCell :=
  { uses := [.lightningModelCls, .numLabels, .pl, .trainDataloader,
             .valDataloader, .torch]
    defines := [.lightningModel, .modelCheckpoint, .camembertTrainer] }

/-- The cell defining `ID_TO_LABEL`, `label_names` and the validation
predictions. -/
def valPredsCell : NotebookCell :=
  { uses := [.camembertTrainer, .lightningModel, .valDataloader, .torch]
    defines := [.idToLabel, .labelNames, .camembertPreds] }

/-- The confusion-matrix cell (calling `plot_confusion_matrix` reads the
globals it references). -/
def confusionCell : NotebookCell :=
  { uses := [.plotConfusionMatrixFn, .dataset, .camembertPreds, .labelNames,
             .confusionMatrixFn, .plt, .sns]
    defines := [] }

/-- The classification-report cell. -/
def reportCell : NotebookCell :=
  { uses := [.classificationReportFn, .dataset, .camembertPreds, .labelNames]
    defines := [] }

/-- The wrong-classification cell: its first statement reads
`camembert_preds.numpy() != np.array(dataset["validation"]["label"])`. -/
def wrongPredsCell : NotebookCell :=
  { uses := [.camembertPreds, .np, .dataset, .pd, .idToLabel]
    defines := [.wrongPreds, .wrong, .preds] }

/-- The final submission cell. -/
def submissionCell : NotebookCell :=
  { uses := [.dataLoaderCls, .dataset, .functools, .tokenizeBatchFn,
             .tokenizer, .camembertTrainer, .lightningModel, .torch,
             .labelNames]
    defines := [.testDataloader, .preds, .testDf] }

/-- The notebook's code cells in execution order. -/
def notebookCells : List NotebookCell :=
  [importsCell, loadDataCell, labelHistCell, lengthHistCell, infoCell,
   dataloadersCell, trainingCell, valPredsCell, confusionCell, reportCell,
   wrongPredsCell, submissionCell]

/-- Does every cell only read names already bound, running top to bottom
from environment `env`? -/
def notebookBindsAll (env : List PyName) : List NotebookCell → Bool
  | [] => true
  | c :: cs => c.uses.all env.contains && notebookBindsAll (env ++ c.defines) cs

/-- All reads of names not bound by an earlier import or assignment, in
order of occurrence. -/
def unboundUses (env : List PyName) : List NotebookCell → List PyName
  | [] => []
  | c :: cs =>
      c.uses.filter (fun n => !env.contains n) ++
        unboundUses (env ++ c.defines) cs

theorem mem_length_le_maxLen (xss : List (List Nat)) (xs : List Nat)
    (h : xs ∈ xss) : xs.length ≤ maxLen xss := by
  induction xss with
  | nil => cases h
  | cons y ys ih =>
    rcases List.mem_cons.mp h with rfl | h
    · exact le_max_left _ _
    · exact le_trans (ih h) (le_max_right _ _)

theorem padTo_length (padId n : Nat) (xs : List Nat) (h : xs.length ≤ n) :
    (padTo padId n xs).length = n := by
  simp [padTo]
  omega

theorem maskTo_length (n : Nat) (xs : List Nat) (h : xs.length ≤ n) :
    (maskTo n xs).length = n := by
  simp [maskTo]
  omega

theorem chunks_flatten (k : Nat) (xs : List α) : (chunks k xs).flatten = xs := by
  match xs with
  | [] => simp [chunks]
  | x :: xs =>
    rw [chunks]
    simp only [List.flatten_cons]
    rw [chunks_flatten k (xs.drop (k - 1))]
    simp [List.take_append_drop]
termination_by xs.length
decreasing_by simp [List.length_drop]; omega

theorem predictSplit_eq_map (model : Sample → Nat) (rows : List Sample) :
    predictSplit model rows = rows.map model := by
  unfold predictSplit
  rw [← List.map_flatten, chunks_flatten]

theorem setColList_keys (cols : List (String × List Value)) (name : String)
    (vals : List Value) :
    (setColList cols name vals).map Prod.fst = cols.map Prod.fst := by
  induction cols with
  | nil => rfl
  | cons c cs ih =>
    simp only [setColList, List.map_cons, ih]
    by_cases hc : c.1 = name <;> simp [hc]

theorem findColList_eq_none (cols : List (String × List Value)) (name : String)
    (h : name ∉ cols.map Prod.fst) : findColList cols name = none := by
  induction cols with
  | nil => rfl
  | cons c cs ih =>
    simp only [List.map_cons, List.mem_cons, not_or] at h
    have hc : c.1 ≠ name := fun e => h.1 e.symm
    simp only [findColList, hc, if_false]
    exact ih h.2

theorem findColList_setColList_self (cols : List (String × List Value))
    (name : String) (vals : List Value) (h : name ∈ cols.map Prod.fst) :
    findColList (setColList cols name vals) name = some vals := by
  induction cols with
  | nil => cases h
  | cons c cs ih =>
    simp only [List.map_cons, List.mem_cons] at h
    by_cases hc : c.1 = name
    · simp [findColList, setColList, hc]
    · have hne : name ∈ cs.map Prod.fst := by
        rcases h with h | h
        · exact absurd h.symm hc
        · exact h
      simp only [setColList, hc, if_false, findColList]
      exact ih hne

theorem findColList_setColList_ne (cols : List (String × List Value))
    (name m : String) (vals : List Value) (h : m ≠ name) :
    findColList (setColList cols name vals) m = findColList cols m := by
  induction cols with
  | nil => rfl
  | cons c cs ih =>
    by_cases hc : c.1 = name
    · have hm : c.1 ≠ m := fun e => h (e ▸ hc :)
      simp only [setColList, hc, if_true, findColList]
      have hm2 : name ≠ m := hc ▸ hm
      simp only [hm2, hm, if_false]
      exact ih
    · simp only [setColList, hc, if_false, findColList]
      by_cases hcm : c.1 = m <;> simp [hcm, ih]

theorem findColList_dropColsList (cols : List (String × List Value))
    (names : List String) (m : String) (h : m ∉ names) :
    findColList (dropColsList cols names) m = findColList cols m := by
  induction cols with
  | nil => rfl
  | cons c cs ih =>
    by_cases hcn : c.1 ∈ names
    · have hm : c.1 ≠ m := fun e => h (e ▸ hcn)
      simp only [dropColsList, hcn, if_true, findColList, hm, if_false]
      exact ih
    · simp only [dropColsList, hcn, if_false, findColList]
      by_cases hcm : c.1 = m <;> simp [hcm, ih]

theorem dropColsList_keys (cols : List (String × List Value))
    (names : List String) :
    (dropColsList cols names).map Prod.fst =
      (cols.map Prod.fst).filter (fun n => !names.contains n) := by
  induction cols with
  | nil => rfl
  | cons c cs ih =>
    by_cases hcn : c.1 ∈ names <;>
      simp [dropColsList, hcn, List.filter_cons, ih]

theorem labelNameAt_lt (p : Nat) (h : p < 6) :
    labelNameAt p = some (levelName p) := by
  revert p
  decide

theorem mapLabelNames_int (preds : List Nat) (h : ∀ p ∈ preds, p < 6) :
    mapLabelNames (preds.map Value.int) =
      some (preds.map fun p => Value.str (levelName p)) := by
  induction preds with
  | nil => rfl
  | cons p ps ih =>
    have hp : p < 6 := h p (List.mem_cons_self p ps)
    have hps : ∀ q ∈ ps, q < 6 := fun q hq => h q (List.mem_cons_of_mem _ hq)
    simp only [List.map_cons, mapLabelNames, valueToLabelName,
      labelNameAt_lt p hp, ih hps]
    rfl

theorem splitToFrame_keys (rows : List Sample) :
    (splitToFrame rows).cols.map Prod.fst =
      [sentenceCol, labelCol, difficultyCol] := rfl

theorem submissionPipeline_eq (df : DataFrame) (preds : List Nat)
    (hlab : labelCol ∈ df.cols.map Prod.fst)
    (hpred : ∀ p ∈ preds, p < 6) :
    submissionPipeline df preds =
      some { indexName := idIndexName
             cols := dropColsList
                       (setColList
                         (setColList df.cols labelCol (preds.map Value.int))
                         difficultyCol
                         (preds.map fun p => Value.str (levelName p)))
                       [sentenceCol, labelCol] } := by
  simp only [submissionPipeline,
    findColList_setColList_self df.cols labelCol (preds.map Value.int) hlab,
    mapLabelNames_int preds hpred]

theorem foldl_checkpointStep_some {α : Type} (cs : List (Nat × α))
    (b0 : Nat × α) :
    ∃ b, cs.foldl checkpointStep (some b0) = some b ∧ (b = b0 ∨ b ∈ cs) ∧
      b0.1 ≤ b.1 ∧ ∀ c ∈ cs, c.1 ≤ b.1 := by
  induction cs generalizing b0 with
  | nil =>
    exact ⟨b0, rfl, Or.inl rfl, le_refl _, fun c hc => absurd hc
      (List.not_mem_nil c)⟩
  | cons c cs ih =>
    simp only [List.foldl_cons]
    by_cases hlt : b0.1 < c.1
    · have step : checkpointStep (some b0) c = some c := by
        simp [checkpointStep, hlt]
      rw [step]
      obtain ⟨b, hb, hmem, hle, hall⟩ := ih c
      refine ⟨b, hb, ?_, le_trans (le_of_lt hlt) hle, ?_⟩
      · rcases hmem with rfl | hm
        · exact Or.inr (List.mem_cons_self _ _)
        · exact Or.inr (List.mem_cons_of_mem _ hm)
      · intro x hx
        rcases List.mem_cons.mp hx with rfl | hx
        · exact hle
        · exact hall x hx
    · have step : checkpointStep (some b0) c = some b0 := by
        simp [checkpointStep, hlt]
      rw [step]
      obtain ⟨b, hb, hmem, hle, hall⟩ := ih b0
      refine ⟨b, hb, ?_, hle, ?_⟩
      · rcases hmem with rfl | hm
        · exact Or.inl rfl
        · exact Or.inr (List.mem_cons_of_mem _ hm)
      · intro x hx
        rcases List.mem_cons.mp hx with rfl | hx
        · exact le_trans (Nat.le_of_not_lt hlt) hle
        · exact hall x hx

theorem map_map_length_eq_replicate (f : List Nat → List Nat) (n : Nat)
    (toks : List (List Nat)) (h : ∀ xs ∈ toks, (f xs).length = n) :
    (toks.map f).map List.length = List.replicate toks.length n := by
  induction toks with
  | nil => rfl
  | cons t ts ih =>
    simp only [List.map_cons, List.length_cons, List.replicate_succ]
    rw [h t (List.mem_cons_self t ts),
      ih (fun xs hx => h xs (List.mem_cons_of_mem _ hx))]

theorem levelTuple_at_lt (p : Nat) (h : p < 6) :
    levelTuple[p]? = some (levelName p) ∧ idToLabelGet p = levelTuple[p]? := by
  revert p
  decide

/-- Shape of the dataframe produced by the submission-building cell, for
any starting frame having `label` and `difficulty` columns and any
in-range prediction vector. -/
theorem submissionPipeline_shape (df : DataFrame) (preds : List Nat)
    (hpred : ∀ p ∈ preds, p < 6)
    (hlab : labelCol ∈ df.cols.map Prod.fst)
    (hdiff : difficultyCol ∈ df.cols.map Prod.fst) :
    ∃ out, submissionPipeline df preds = some out ∧
      out.indexName = idIndexName ∧
      getCol out sentenceCol = none ∧
      getCol out labelCol = none ∧
      getCol out difficultyCol
        = some (preds.map fun p => Value.str (levelName p)) ∧
      (∀ m, m ≠ sentenceCol → m ≠ labelCol → m ≠ difficultyCol →
        getCol out m = getCol df m) ∧
      out.cols.map Prod.fst =
        (df.cols.map Prod.fst).filter
          (fun n => !([sentenceCol, labelCol].contains n)) := by
  have heq := submissionPipeline_eq df preds hlab hpred
  set X := setColList (setColList df.cols labelCol (preds.map Value.int))
      difficultyCol (preds.map fun p => Value.str (levelName p)) with hX
  have hXkeys : X.map Prod.fst = df.cols.map Prod.fst := by
    rw [hX, setColList_keys, setColList_keys]
  refine ⟨{ indexName := idIndexName
            cols := dropColsList X [sentenceCol, labelCol] },
    heq, rfl, ?_, ?_, ?_, ?_, ?_⟩
  · simp only [getCol]
    apply findColList_eq_none
    rw [dropColsList_keys, hXkeys]
    intro hmem
    have h2 := (List.mem_filter.mp hmem).2
    have hscon : ([sentenceCol, labelCol].contains sentenceCol) = true := by
      decide
    rw [hscon] at h2
    exact absurd h2 (by decide)
  · simp only [getCol]
    apply findColList_eq_none
    rw [dropColsList_keys, hXkeys]
    intro hmem
    have h2 := (List.mem_filter.mp hmem).2
    have hlcon : ([sentenceCol, labelCol].contains labelCol) = true := by
      decide
    rw [hlcon] at h2
    exact absurd h2 (by decide)
  · simp only [getCol]
    rw [findColList_dropColsList _ _ _
      (by decide : difficultyCol ∉ [sentenceCol, labelCol])]
    rw [hX]
    apply findColList_setColList_self
    rw [setColList_keys]
    exact hdiff
  · intro m hms hml hmd
    simp only [getCol]
    rw [findColList_dropColsList _ _ _ (by simp [hms, hml])]
    rw [hX, findColList_setColList_ne _ _ _ _ hmd,
      findColList_setColList_ne _ _ _ _ hml]
  · simp only []
    rw [dropColsList_keys, hXkeys]

/-! ## Claim theorems -/

/-- C1: every predicted label id `p` of a test-set row is written to the
submission as the p-th element of the level tuple A1, A2, B1, B2, C1, C2, and
`ID_TO_LABEL` maps each id `i < 6` to the i-th level name of that tuple. -/
theorem difficulty_is_pth_level_name (model : Sample → Nat)
    (rows : List Sample) (hm : ∀ r ∈ rows, model r < 6) :
    ∃ df, exportedSubmission model rows = some df ∧
      (∀ (i : Nat) (r : Sample), rows[i]? = some r →
        (getCol df difficultyCol).bind (fun vals => vals[i]?)
          = some (Value.str (levelName (model r))) ∧
        levelTuple[model r]? = some (levelName (model r))) ∧
      (∀ p, p < 6 → idToLabelGet p = levelTuple[p]?) := by
  have hpred : ∀ p ∈ predictSplit model rows, p < 6 := by
    rw [predictSplit_eq_map]
    intro p hp
    obtain ⟨r, hr, rfl⟩ := List.mem_map.mp hp
    exact hm r hr
  have hlab : labelCol ∈ (splitToFrame rows).cols.map Prod.fst := by
    rw [splitToFrame_keys]
    decide
  have hdiff : difficultyCol ∈ (splitToFrame rows).cols.map Prod.fst := by
    rw [splitToFrame_keys]
    decide
  obtain ⟨out, hout, hidx, hs, hl, hd, hother, hkeys⟩ :=
    submissionPipeline_shape (splitToFrame rows) (predictSplit model rows)
      hpred hlab hdiff
  refine ⟨out, hout, ?_, fun p hp => (levelTuple_at_lt p hp).2⟩
  intro i r hir
  have hrmem : r ∈ rows := List.mem_iff_getElem?.mpr ⟨i, hir⟩
  have hlt : model r < 6 := hm r hrmem
  refine ⟨?_, (levelTuple_at_lt (model r) hlt).1⟩
  rw [hd]
  show ((predictSplit model rows).map fun p => Value.str (levelName p))[i]?
    = some (Value.str (levelName (model r)))
  rw [predictSplit_eq_map, List.map_map, List.getElem?_map, hir]
  rfl

/-- C1 witness: a single-row test split whose row has label 1; the
difficulty written at index 0 is `A2`, the element at position 1 of the
level tuple. -/
theorem difficulty_is_pth_level_name_witness :
    (∀ r ∈ ([⟨"w", 1, "A2"⟩] : List Sample), (fun x : Sample => x.label) r < 6) ∧
    (∃ df, exportedSubmission (fun x : Sample => x.label) [⟨"w", 1, "A2"⟩]
        = some df ∧
      (∀ (i : Nat) (r : Sample), ([⟨"w", 1, "A2"⟩] : List Sample)[i]? = some r →
        (getCol df difficultyCol).bind (fun vals => vals[i]?)
          = some (Value.str (levelName ((fun x : Sample => x.label) r))) ∧
        levelTuple[(fun x : Sample => x.label) r]?
          = some (levelName ((fun x : Sample => x.label) r))) ∧
      (∀ p, p < 6 → idToLabelGet p = levelTuple[p]?)) :=
  ⟨by decide, difficulty_is_pth_level_name _ _ (by decide)⟩

/-- C2: the exported submission has exactly one prediction per test-split
row, in the split's order — the test dataloader does not shuffle, the
concatenated per-batch predictions equal the row-by-row predictions, and
the difficulty column has the i-th row's prediction at index i. -/
theorem one_prediction_per_test_row (model : Sample → Nat)
    (rows : List Sample) (hm : ∀ r ∈ rows, model r < 6) :
    test_dataloader_config.shuffle = false ∧
    predictSplit model rows = rows.map model ∧
    ∃ df vals, exportedSubmission model rows = some df ∧
      getCol df difficultyCol = some vals ∧
      vals.length = rows.length ∧
      ∀ (i : Nat) (r : Sample), rows[i]? = some r →
        vals[i]? = some (Value.str (levelName (model r))) := by
  have hpred : ∀ p ∈ predictSplit model rows, p < 6 := by
    rw [predictSplit_eq_map]
    intro p hp
    obtain ⟨r, hr, rfl⟩ := List.mem_map.mp hp
    exact hm r hr
  have hlab : labelCol ∈ (splitToFrame rows).cols.map Prod.fst := by
    rw [splitToFrame_keys]
    decide
  have hdiff : difficultyCol ∈ (splitToFrame rows).cols.map Prod.fst := by
    rw [splitToFrame_keys]
    decide
  obtain ⟨out, hout, hidx, hs, hl, hd, hother, hkeys⟩ :=
    submissionPipeline_shape (splitToFrame rows) (predictSplit model rows)
      hpred hlab hdiff
  refine ⟨rfl, predictSplit_eq_map model rows, out, _, hout, hd, ?_, ?_⟩
  · rw [List.length_map, predictSplit_eq_map, List.length_map]
  · intro i r hir
    rw [predictSplit_eq_map, List.map_map, List.getElem?_map, hir]
    rfl

/-- C2 witness: a two-row test split; the difficulty column has two
entries, one per row, in order. -/
theorem one_prediction_per_test_row_witness :
    (∀ r ∈ ([⟨"u", 0, "A1"⟩, ⟨"v", 5, "C2"⟩] : List Sample),
      (fun x : Sample => x.label) r < 6) ∧
    (test_dataloader_config.shuffle = false ∧
     predictSplit (fun x : Sample => x.label) [⟨"u", 0, "A1"⟩, ⟨"v", 5, "C2"⟩]
       = ([⟨"u", 0, "A1"⟩, ⟨"v", 5, "C2"⟩] : List Sample).map
           (fun x : Sample => x.label) ∧
     ∃ df vals,
       exportedSubmission (fun x : Sample => x.label)
           [⟨"u", 0, "A1"⟩, ⟨"v", 5, "C2"⟩] = some df ∧
       getCol df difficultyCol = some vals ∧
       vals.length = ([⟨"u", 0, "A1"⟩, ⟨"v", 5, "C2"⟩] : List Sample).length ∧
       ∀ (i : Nat) (r : Sample),
         ([⟨"u", 0, "A1"⟩, ⟨"v", 5, "C2"⟩] : List Sample)[i]? = some r →
         vals[i]? = some (Value.str (levelName ((fun x : Sample => x.label) r)))) :=
  ⟨by decide, one_prediction_per_test_row _ _ (by decide)⟩

/-- C3: on a non-empty batch, `tokenize_batch` returns the sentences,
labels and difficulty strings in input order, and `input_ids` and
`attention_mask` have identical shapes with one row per sample, every
row padded to the longest tokenized sentence of the batch. -/
theorem tokenize_batch_fields (encode : String → List Nat) (padId : Nat)
    (samples : List Sample) (hne : samples ≠ []) :
    (tokenize_batch encode padId samples).sentences
        = samples.map (·.sentence) ∧
    (tokenize_batch encode padId samples).labels = samples.map (·.label) ∧
    (tokenize_batch encode padId samples).str_labels
        = samples.map (·.difficulty) ∧
    (tokenize_batch encode padId samples).input_ids.length = samples.length ∧
    (tokenize_batch encode padId samples).attention_mask.length
        = samples.length ∧
    (tokenize_batch encode padId samples).input_ids.map List.length
        = (tokenize_batch encode padId samples).attention_mask.map
            List.length ∧
    ∀ row ∈ (tokenize_batch encode padId samples).input_ids,
      row.length = maxLen ((samples.map (·.sentence)).map encode) := by
  have hbound : ∀ xs ∈ (samples.map (·.sentence)).map encode,
      xs.length ≤ maxLen ((samples.map (·.sentence)).map encode) :=
    fun xs hx => mem_length_le_maxLen _ xs hx
  refine ⟨rfl, rfl, rfl, ?_, ?_, ?_, ?_⟩
  · simp [tokenize_batch]
  · simp [tokenize_batch]
  · show (((samples.map (·.sentence)).map encode).map
        (padTo padId (maxLen ((samples.map (·.sentence)).map encode)))).map
          List.length
      = (((samples.map (·.sentence)).map encode).map
          (maskTo (maxLen ((samples.map (·.sentence)).map encode)))).map
            List.length
    rw [map_map_length_eq_replicate
        (padTo padId (maxLen ((samples.map (·.sentence)).map encode)))
        (maxLen ((samples.map (·.sentence)).map encode))
        ((samples.map (·.sentence)).map encode)
        (fun xs hx => padTo_length _ _ _ (hbound xs hx)),
      map_map_length_eq_replicate
        (maskTo (maxLen ((samples.map (·.sentence)).map encode)))
        (maxLen ((samples.map (·.sentence)).map encode))
        ((samples.map (·.sentence)).map encode)
        (fun xs hx => maskTo_length _ _ (hbound xs hx))]
  · intro row hrow
    have hrow2 : row ∈ ((samples.map (·.sentence)).map encode).map
        (padTo padId (maxLen ((samples.map (·.sentence)).map encode))) := hrow
    obtain ⟨xs, hx, rfl⟩ := List.mem_map.mp hrow2
    exact padTo_length _ _ _ (hbound xs hx)

/-- C3 witness: a concrete two-sample batch with a length-based encoder;
both tensors are 2 × 4, the second sentence being the longest. -/
theorem tokenize_batch_fields_witness :
    (([⟨"ab", 1, "A2"⟩, ⟨"abcd", 3, "B2"⟩] : List Sample) ≠ []) ∧
    ((tokenize_batch (fun s => List.replicate s.length 9) 0
        [⟨"ab", 1, "A2"⟩, ⟨"abcd", 3, "B2"⟩]).sentences
      = ([⟨"ab", 1, "A2"⟩, ⟨"abcd", 3, "B2"⟩] : List Sample).map (·.sentence) ∧
     (tokenize_batch (fun s => List.replicate s.length 9) 0
        [⟨"ab", 1, "A2"⟩, ⟨"abcd", 3, "B2"⟩]).labels
      = ([⟨"ab", 1, "A2"⟩, ⟨"abcd", 3, "B2"⟩] : List Sample).map (·.label) ∧
     (tokenize_batch (fun s => List.replicate s.length 9) 0
        [⟨"ab", 1, "A2"⟩, ⟨"abcd", 3, "B2"⟩]).str_labels
      = ([⟨"ab", 1, "A2"⟩, ⟨"abcd", 3, "B2"⟩] : List Sample).map
          (·.difficulty) ∧
     (tokenize_batch (fun s => List.replicate s.length 9) 0
        [⟨"ab", 1, "A2"⟩, ⟨"abcd", 3, "B2"⟩]).input_ids.length
      = ([⟨"ab", 1, "A2"⟩, ⟨"abcd", 3, "B2"⟩] : List Sample).length ∧
     (tokenize_batch (fun s => List.replicate s.length 9) 0
        [⟨"ab", 1, "A2"⟩, ⟨"abcd", 3, "B2"⟩]).attention_mask.length
      = ([⟨"ab", 1, "A2"⟩, ⟨"abcd", 3, "B2"⟩] : List Sample).length ∧
     (tokenize_batch (fun s => List.replicate s.length 9) 0
        [⟨"ab", 1, "A2"⟩, ⟨"abcd", 3, "B2"⟩]).input_ids.map List.length
      = (tokenize_batch (fun s => List.replicate s.length 9) 0
          [⟨"ab", 1, "A2"⟩, ⟨"abcd", 3, "B2"⟩]).attention_mask.map
            List.length ∧
     ∀ row ∈ (tokenize_batch (fun s => List.replicate s.length 9) 0
        [⟨"ab", 1, "A2"⟩, ⟨"abcd", 3, "B2"⟩]).input_ids,
       row.length = maxLen
         ((([⟨"ab", 1, "A2"⟩, ⟨"abcd", 3, "B2"⟩] : List Sample).map
             (·.sentence)).map (fun s => List.replicate s.length 9))) :=
  ⟨by decide, tokenize_batch_fields _ _ _ (by decide)⟩

/-- C8: the exported frame is indexed by `id`, has no `sentence` and no
`label` column, carries the predicted difficulty names, leaves any other
column unchanged, and — when the test split's columns are exactly
`sentence`, `label`, `difficulty` — contains only the `difficulty`
column. -/
theorem submission_only_difficulty (df : DataFrame) (preds : List Nat)
    (hpred : ∀ p ∈ preds, p < 6)
    (hlab : labelCol ∈ df.cols.map Prod.fst)
    (hdiff : difficultyCol ∈ df.cols.map Prod.fst) :
    ∃ out, submissionPipeline df preds = some out ∧
      out.indexName = idIndexName ∧
      getCol out sentenceCol = none ∧
      getCol out labelCol = none ∧
      getCol out difficultyCol
        = some (preds.map fun p => Value.str (levelName p)) ∧
      (∀ m, m ≠ sentenceCol → m ≠ labelCol → m ≠ difficultyCol →
        getCol out m = getCol df m) ∧
      (df.cols.map Prod.fst = [sentenceCol, labelCol, difficultyCol] →
        out.cols.map Prod.fst = [difficultyCol]) := by
  obtain ⟨out, hout, hidx, hs, hl, hd, hother, hkeys⟩ :=
    submissionPipeline_shape df preds hpred hlab hdiff
  refine ⟨out, hout, hidx, hs, hl, hd, hother, ?_⟩
  intro hk
  rw [hkeys, hk]
  decide

/-- C8 witness: starting from the three-column frame of a one-row test
split with prediction 4, the output is the single column `difficulty`
holding `C1`, under index name `id`. -/
theorem submission_only_difficulty_witness :
    (∀ p ∈ ([4] : List Nat), p < 6) ∧
    labelCol ∈ (splitToFrame [⟨"s", 0, "A1"⟩]).cols.map Prod.fst ∧
    difficultyCol ∈ (splitToFrame [⟨"s", 0, "A1"⟩]).cols.map Prod.fst ∧
    (∃ out, submissionPipeline (splitToFrame [⟨"s", 0, "A1"⟩]) [4]
        = some out ∧
      out.indexName = idIndexName ∧
      getCol out sentenceCol = none ∧
      getCol out labelCol = none ∧
      getCol out difficultyCol
        = some (([4] : List Nat).map fun p => Value.str (levelName p)) ∧
      (∀ m, m ≠ sentenceCol → m ≠ labelCol → m ≠ difficultyCol →
        getCol out m = getCol (splitToFrame [⟨"s", 0, "A1"⟩]) m) ∧
      ((splitToFrame [⟨"s", 0, "A1"⟩]).cols.map Prod.fst
          = [sentenceCol, labelCol, difficultyCol] →
        out.cols.map Prod.fst = [difficultyCol])) :=
  ⟨by decide, by decide, by decide,
    submission_only_difficulty _ _ (by decide) (by decide) (by decide)⟩

/-- C4, counterexample: with three distinct concrete splits, the
positional unpacking
`train_dataset, test_dataset, val_dataset = dataset.values()` over the
train/validation/test-ordered dict does not put the test split in
`test_dataset` nor the validation split in `val_dataset`. -/
theorem unpacking_mismatch_counterexample :
    ¬ (test_dataset_var [⟨"tr", 0, "A1"⟩] [⟨"va", 1, "A2"⟩] [⟨"te", 2, "B1"⟩]
         = [⟨"te", 2, "B1"⟩] ∧
       val_dataset_var [⟨"tr", 0, "A1"⟩] [⟨"va", 1, "A2"⟩] [⟨"te", 2, "B1"⟩]
         = [⟨"va", 1, "A2"⟩]) := by
  decide

/-- C4, amended: under the positional unpacking
`train_dataset, test_dataset, val_dataset = dataset.values()` of the
train/validation/test-ordered dict, `train_dataset` holds the train
split, while `test_dataset` holds the validation split and `val_dataset`
holds the test split. -/
theorem unpacking_assignments (tr va te : List Sample) :
    train_dataset_var tr va te = tr ∧
    test_dataset_var tr va te = va ∧
    val_dataset_var tr va te = te :=
  ⟨rfl, rfl, rfl⟩

/-- C5: running the cells once in order does NOT bind every referenced
name before use — the single unbound read in the whole notebook is `np`
in the wrong-classification cell, which no earlier cell imports or
assigns, so that cell raises `NameError`. -/
theorem np_never_bound :
    notebookBindsAll [] notebookCells = false ∧
    unboundUses [] notebookCells = [PyName.np] ∧
    PyName.np ∈ wrongPredsCell.uses := by
  decide

/-- C6: the training-loop configuration authored by the notebook is
exactly third-party parameters with these values: batch size 16 on all
three dataloaders, learning rate 3e-5, and early stopping monitoring
valid/acc in max mode with patience 4. -/
theorem training_configuration :
    train_dataloader_config.batch_size = 16 ∧
    val_dataloader_config.batch_size = 16 ∧
    test_dataloader_config.batch_size = 16 ∧
    lightning_model_init.lr = 3 / 100000 ∧
    early_stopping_config.monitor = validAccMonitor ∧
    early_stopping_config.mode = maxMode ∧
    early_stopping_config.patience = 4 ∧
    model_checkpoint_config = { monitor := validAccMonitor, mode := maxMode } :=
  ⟨rfl, rfl, rfl, rfl, rfl, rfl, rfl, rfl⟩

/-- C7: after `fit`, the model bound to `lightning_model` — the one both
later `predict` calls receive — is the checkpoint whose monitored
valid/acc is maximal over the epochs, reloaded from `best_model_path`. -/
theorem prediction_uses_best_checkpoint {α : Type} (ckpts : List (Nat × α))
    (h : ckpts ≠ []) :
    ∃ b, bestCheckpoint ckpts = some b ∧ b ∈ ckpts ∧
      (∀ c ∈ ckpts, c.1 ≤ b.1) ∧
      predictionModelForVal ckpts = some b.2 ∧
      predictionModelForTest ckpts = some b.2 := by
  match ckpts with
  | [] => exact absurd rfl h
  | c :: cs =>
    have hbc : bestCheckpoint (c :: cs) = cs.foldl checkpointStep (some c) := by
      simp [bestCheckpoint, checkpointStep]
    obtain ⟨b, hb, hmem, hle, hall⟩ := foldl_checkpointStep_some cs c
    refine ⟨b, by rw [hbc, hb], ?_, ?_, ?_, ?_⟩
    · rcases hmem with rfl | hm
      · exact List.mem_cons_self _ _
      · exact List.mem_cons_of_mem _ hm
    · intro x hx
      rcases List.mem_cons.mp hx with rfl | hx
      · exact hle
      · exact hall x hx
    · simp [predictionModelForVal, reloadedModel, hbc, hb]
    · simp [predictionModelForTest, reloadedModel, hbc, hb]

/-- C7 witness: on the concrete checkpoint history
`[(1, 10), (5, 20), (3, 30)]` (monitored accuracy paired with model
state), the reloaded model is state 20, from the middle epoch with the
maximal monitored value — not the final epoch's state 30. -/
theorem prediction_uses_best_checkpoint_witness :
    (([(1, 10), (5, 20), (3, 30)] : List (Nat × Nat)) ≠ []) ∧
    (∃ b, bestCheckpoint ([(1, 10), (5, 20), (3, 30)] : List (Nat × Nat))
        = some b ∧
      b ∈ ([(1, 10), (5, 20), (3, 30)] : List (Nat × Nat)) ∧
      (∀ c ∈ ([(1, 10), (5, 20), (3, 30)] : List (Nat × Nat)), c.1 ≤ b.1) ∧
      predictionModelForVal ([(1, 10), (5, 20), (3, 30)] : List (Nat × Nat))
        = some b.2 ∧
      predictionModelForTest ([(1, 10), (5, 20), (3, 30)] : List (Nat × Nat))
        = some b.2) :=
  ⟨by decide, prediction_uses_best_checkpoint _ (by decide)⟩

/-- C9: the train dataloader shuffles while the validation and test
dataloaders do not, and over an unshuffled dataloader the i-th entry of
the concatenated prediction vector is the model's output on the i-th row
of the split. -/
theorem unshuffled_alignment (model : Sample → Nat) (rows : List Sample)
    (i : Nat) (r : Sample) (h : rows[i]? = some r) :
    train_dataloader_config.shuffle = true ∧
    val_dataloader_config.shuffle = false ∧
    test_dataloader_config.shuffle = false ∧
    (predictSplit model rows)[i]? = some (model r) := by
  refine ⟨rfl, rfl, rfl, ?_⟩
  rw [predictSplit_eq_map, List.getElem?_map, h]
  rfl

/-- C9 witness: a two-row split with the row's `label` field as the
model's output; the entry at index 1 of the concatenated predictions is
the prediction for row 1. -/
theorem unshuffled_alignment_witness :
    ([⟨"a", 0, "A1"⟩, ⟨"b", 3, "B2"⟩] : List Sample)[1]?
        = some ⟨"b", 3, "B2"⟩ ∧
    (train_dataloader_config.shuffle = true ∧
     val_dataloader_config.shuffle = false ∧
     test_dataloader_config.shuffle = false ∧
     (predictSplit (fun r => r.label)
        [⟨"a", 0, "A1"⟩, ⟨"b", 3, "B2"⟩])[1]?
        = some ((fun r : Sample => r.label) ⟨"b", 3, "B2"⟩)) :=
  ⟨by decide, unshuffled_alignment (fun r => r.label) _ 1 _ (by decide)⟩

/-- C10: `num_labels` is the number of distinct train-split labels, not
a constant; it equals the size of the six-entry `label_names` mapping
exactly when the train split has six distinct labels; and the lookup
`label_names[x]` fails (IndexError) for every `x ≥ len(label_names)`. -/
theorem num_labels_from_train_split (trainLabels : List Nat) (x : Nat)
    (h : 6 ≤ x) :
    num_labels_of trainLabels = trainLabels.dedup.length ∧
    label_names.length = 6 ∧
    (num_labels_of trainLabels = label_names.length ↔
      trainLabels.dedup.length = 6) ∧
    labelNameAt x = none := by
  refine ⟨rfl, rfl, Iff.rfl, ?_⟩
  have hlen : label_names.length ≤ x := h
  simp [labelNameAt, List.getElem?_eq_none hlen]

/-- C10 witness: for the train-label list `[0, 0, 1]` there are two
distinct labels, so `num_labels` is 2 and differs from the size of the
mapping, and `label_names[7]` is out of range. -/
theorem num_labels_from_train_split_witness :
    6 ≤ 7 ∧
    (num_labels_of [0, 0, 1] = [0, 0, 1].dedup.length ∧
     label_names.length = 6 ∧
     (num_labels_of [0, 0, 1] = label_names.length ↔
       [0, 0, 1].dedup.length = 6) ∧
     labelNameAt 7 = none) :=
  ⟨by decide, num_labels_from_train_split [0, 0, 1] 7 (by decide)⟩

end Camembert
